import Mathlib

/-!
Verification of the peritus expert-CLI core (src/src/main.rs): the record
store, the selection cursor, and the key handlers of the UI loop, embedded
shallowly as pure Lean functions.

Modelling conventions:
* The db file is modelled by the record sequence it encodes; the JSON
  encoding itself (serde_json + chrono's RFC3339 rendering of
  `DateTime<Utc>`) is modelled separately in the serialization section and
  proved lossless, which justifies the identification at the UI level.
  File I/O is assumed to succeed (`read_to_string` / `fs::write` on the
  fixed DB_PATH); the source aborts via `expect` on any failure.
* `usize` arithmetic is modelled with checked subtraction (`checkedSub`):
  an underflow is a panic, as in a debug build.  (A release build wraps to
  2^64 - 1 instead, which as a cursor index is equally out of range.)
* `Vec::remove(i)` panics when `i` is out of bounds, in every build
  profile; this is modelled by the `panicked` outcome.
* Randomness is modelled by passing the drawn values explicitly
  (`RngDraws`); the contracts of the `gen_range` calls become hypotheses.
-/

/-- Calendar components of a `chrono::DateTime<Utc>` value as rendered by
its RFC3339 serialization (date, time of day, and the sub-second
nanoseconds, which carry the precision). -/
structure Timestamp where
  year : Nat
  month : Nat
  day : Nat
  hour : Nat
  minute : Nat
  second : Nat
  nanos : Nat
deriving DecidableEq

/-- The `Expert` record persisted in the db file (main.rs lines 40-47). -/
structure Expert where
  id : Nat
  name : String
  category : String
  age : Nat
  created_at : Timestamp
deriving DecidableEq

/-- The `MenuItem` view-state enum (main.rs lines 49-53). -/
inductive MenuItem where
  | Home
  | Experts
deriving DecidableEq

/-- The source's `Error` enum (main.rs lines 27-33).  Payloads
(`io::Error`, `serde_json::Error`) are omitted.  Note that it has no
`IndexOutOfRange` variant. -/
inductive Error where
  | ReadDBError
  | ParseDBError
deriving DecidableEq

/-- In-memory state of the UI loop: the decoded content of the db file,
the `ListState` selection (`expert_list_state.selected()`), and the active
menu item. -/
structure AppState where
  db : List Expert
  cursor : Option Nat
  menu : MenuItem
deriving DecidableEq

/-- Outcome of one key handler.  `err` is an `Err` value returned to the
`expect` in `main` (only file I/O or parsing can produce it, so the
value-level model never does); `panicked` is a panic, carrying the state
(in particular the db-file content) at the moment of the abort. -/
inductive StepResult where
  | ok (s : AppState)
  | err (e : Error) (s : AppState)
  | panicked (s : AppState)
deriving DecidableEq

/-- Content of the persisted db file when the handler returns or aborts. -/
def StepResult.dbFile : StepResult → List Expert
  | .ok s => s.db
  | .err _ s => s.db
  | .panicked s => s.db

/-- Checked `usize` subtraction: `none` is the debug-build panic on
underflow. -/
def checkedSub (a b : Nat) : Option Nat :=
  if b ≤ a then some (a - b) else none

/-- State after startup (main.rs lines 96-98): menu on Home and
`expert_list_state.select(Some(0))`, regardless of the db content. -/
def initState (db : List Expert) : AppState :=
  { db := db, cursor := some 0, menu := .Home }

/-- The `KeyCode::Down` handler (main.rs lines 183-192): with a selection,
read the db, wrap to 0 from the last index, else increment. -/
def navDown (s : AppState) : StepResult :=
  match s.cursor with
  | none => .ok s
  | some selected =>
    let amount_experts := s.db.length
    match checkedSub amount_experts 1 with
    | none => .panicked s
    | some last =>
      if selected ≥ last then .ok { s with cursor := some 0 }
      else .ok { s with cursor := some (selected + 1) }

/-- The `KeyCode::Up` handler (main.rs lines 193-202): with a selection,
decrement, wrapping to `amount_experts - 1` from index 0. -/
def navUp (s : AppState) : StepResult :=
  match s.cursor with
  | none => .ok s
  | some selected =>
    let amount_experts := s.db.length
    if selected > 0 then .ok { s with cursor := some (selected - 1) }
    else
      match checkedSub amount_experts 1 with
      | none => .panicked s
      | some last => .ok { s with cursor := some last }

/-- `remove_expert_at_index` (main.rs lines 346-355): with a selection,
read the db, `Vec::remove(selected)` (panics when out of bounds, before
any write), persist, then `select(Some(selected - 1))` (underflows when
`selected == 0`, after the write). -/
def remove_expert_at_index (s : AppState) : StepResult :=
  match s.cursor with
  | none => .ok s
  | some selected =>
    if selected < s.db.length then
      let parsed := s.db.eraseIdx selected
      match checkedSub selected 1 with
      | none => .panicked { s with db := parsed }
      | some c => .ok { s with db := parsed, cursor := some c }
    else
      .panicked s

/-- The values drawn from `rand::thread_rng()` during one `add` command,
plus the `Utc::now()` reading (main.rs lines 324-339).  `nameStream` is
the `sample_iter(Alphanumeric)` stream of characters. -/
structure RngDraws where
  catDraw : Nat
  idDraw : Nat
  nameStream : Nat → Char
  now : Timestamp

/-- The `match rng.gen_range(0..1) { 0 => "areas", _ => "directories" }`
expression (main.rs lines 328-331), dead branch included. -/
def areadirs (draw : Nat) : String :=
  match draw with
  | 0 => "areas"
  | _ => "directories"

/-- The `random_expert` value built in `add_random_expert_to_db`
(main.rs lines 333-339): the name takes 10 characters from the
`Alphanumeric` sample stream. -/
def makeRandomExpert (d : RngDraws) : Expert :=
  { id := d.idDraw
  , name := String.mk ((List.range 10).map d.nameStream)
  , category := areadirs d.catDraw
  , age := 6
  , created_at := d.now }

/-- `add_random_expert_to_db` (main.rs lines 324-344): read the db, push
the generated record, persist the result, and return it (the written file
and the `Ok` value are the same list, main.rs lines 341-343). -/
def add_random_expert_to_db (db : List Expert) (d : RngDraws) : List Expert :=
  db ++ [makeRandomExpert d]

/-- The `cursor ↦ if cursor >= len - 1 then 0 else cursor + 1` map the
Down handler applies to a selection when the db is non-empty
(main.rs lines 186-190). -/
def downCursor (len c : Nat) : Nat :=
  if c ≥ len - 1 then 0 else c + 1

/-- The `cursor ↦ if cursor > 0 then cursor - 1 else len - 1` map the Up
handler applies to a selection when the db is non-empty
(main.rs lines 196-200). -/
def upCursor (len c : Nat) : Nat :=
  if c > 0 then c - 1 else len - 1

/-!
Serialization section.  The repository persists the sequence with
`serde_json::to_vec` and reads it back with `serde_json::from_str`
(main.rs lines 318-322, 342, 351); the field-by-field object encoding
comes from `#[derive(Serialize, Deserialize)]` on `Expert` and chrono's
RFC3339 serde implementation for `created_at`.  That code lives in the
serde_json and chrono crates, not in this repository, so it is modelled
from the spec here (§6: "a single serialized array of Record objects,
each with fields id (integer), name (string), category (string), age
(integer), created_at (ISO-8601 timestamp string)").  The model works at
the JSON-value level (objects, arrays, numbers, strings); the only
textual sub-format is the timestamp string, where the precision question
lives.  Timestamps are rendered with nine fractional digits; chrono's
`AutoSi` mode emits 0, 3, 6 or 9, equally losslessly.
-/

/-- A JSON value. -/
inductive Json where
  | null
  | bool (b : Bool)
  | num (n : Nat)
  | str (s : String)
  | arr (xs : List Json)
  | obj (fields : List (String × Json))

/-- Field lookup in a JSON object, first match wins. -/
def Json.getField : List (String × Json) → String → Option Json
  | [], _ => none
  | (k, v) :: rest, key => if k = key then some v else Json.getField rest key

/-- Expect an integer value. -/
def Json.asNum : Json → Option Nat
  | .num n => some n
  | _ => none

/-- Expect a string value. -/
def Json.asStr : Json → Option String
  | .str s => some s
  | _ => none

/-- The character for the decimal digit `d`. -/
def digitChar (d : Nat) : Char :=
  Char.ofNat (48 + d)

/-- The decimal digit denoted by the character `c`. -/
def digitVal (c : Char) : Nat :=
  c.toNat - 48

/-- Zero-padded fixed-width decimal rendering of `n`, most significant
digit first. -/
def toFixedDigits : Nat → Nat → List Char
  | 0, _ => []
  | w + 1, n => digitChar (n / 10 ^ w) :: toFixedDigits w (n % 10 ^ w)

/-- Read exactly `w` decimal digits, extending the accumulator `acc`;
returns the value and the remaining characters. -/
def parseFixedNat (acc : Nat) : Nat → List Char → Option (Nat × List Char)
  | 0, cs => some (acc, cs)
  | _ + 1, [] => none
  | w + 1, c :: cs =>
    if c.isDigit then parseFixedNat (acc * 10 + digitVal c) w cs else none

/-- Consume one expected character. -/
def expectChar (c : Char) : List Char → Option (List Char)
  | [] => none
  | x :: xs => if x = c then some xs else none

/-- Modelled from the spec: the ISO-8601/RFC3339 rendering of a
`created_at` timestamp, `YYYY-MM-DDTHH:MM:SS.nnnnnnnnnZ` (chrono's
serde serialization of `DateTime<Utc>`, which is not part of this
repository). -/
def formatTimestamp (t : Timestamp) : List Char :=
  toFixedDigits 4 t.year ++ '-' :: toFixedDigits 2 t.month ++
    '-' :: toFixedDigits 2 t.day ++ 'T' :: toFixedDigits 2 t.hour ++
    ':' :: toFixedDigits 2 t.minute ++ ':' :: toFixedDigits 2 t.second ++
    '.' :: toFixedDigits 9 t.nanos ++ ['Z']

/-- Modelled from the spec: chrono's RFC3339 parse of a `created_at`
timestamp string, inverse direction of `formatTimestamp`. -/
def parseTimestamp (cs : List Char) : Option (Timestamp × List Char) := do
  let (year, cs) ← parseFixedNat 0 4 cs
  let cs ← expectChar '-' cs
  let (month, cs) ← parseFixedNat 0 2 cs
  let cs ← expectChar '-' cs
  let (day, cs) ← parseFixedNat 0 2 cs
  let cs ← expectChar 'T' cs
  let (hour, cs) ← parseFixedNat 0 2 cs
  let cs ← expectChar ':' cs
  let (minute, cs) ← parseFixedNat 0 2 cs
  let cs ← expectChar ':' cs
  let (second, cs) ← parseFixedNat 0 2 cs
  let cs ← expectChar '.' cs
  let (nanos, cs) ← parseFixedNat 0 9 cs
  let cs ← expectChar 'Z' cs
  some (⟨year, month, day, hour, minute, second, nanos⟩, cs)

/-- A timestamp whose components fit their fixed rendering widths (every
real calendar instant does; the nanosecond bound is exact). -/
abbrev Timestamp.Wf (t : Timestamp) : Prop :=
  t.year < 10 ^ 4 ∧ t.month < 10 ^ 2 ∧ t.day < 10 ^ 2 ∧ t.hour < 10 ^ 2 ∧
    t.minute < 10 ^ 2 ∧ t.second < 10 ^ 2 ∧ t.nanos < 10 ^ 9

/-- A record is well-formed when its timestamp is. -/
abbrev Expert.Wf (e : Expert) : Prop :=
  e.created_at.Wf

/-- Modelled from the spec: the serde-derived JSON object for one
`Expert` record, one member per struct field in declaration order. -/
def expertToJson (e : Expert) : Json :=
  .obj [ ("id", .num e.id)
       , ("name", .str e.name)
       , ("category", .str e.category)
       , ("age", .num e.age)
       , ("created_at", .str (String.mk (formatTimestamp e.created_at))) ]

/-- Modelled from the spec: the serde-derived decoding of one `Expert`
record from a JSON object; every field must be present with the right
type, and the timestamp string must parse in full. -/
def expertFromJson (j : Json) : Option Expert :=
  match j with
  | .obj fields => do
    let id ← (Json.getField fields "id").bind Json.asNum
    let name ← (Json.getField fields "name").bind Json.asStr
    let category ← (Json.getField fields "category").bind Json.asStr
    let age ← (Json.getField fields "age").bind Json.asNum
    let createdStr ← (Json.getField fields "created_at").bind Json.asStr
    let (created_at, rest) ← parseTimestamp createdStr.data
    match rest with
    | [] => some ⟨id, name, category, age, created_at⟩
    | _ :: _ => none
  | _ => none

/-- Element-wise decoding of a JSON array of records, as serde
deserializes a `Vec<Expert>`. -/
def decodeExperts : List Json → Option (List Expert)
  | [] => some []
  | j :: js =>
    match expertFromJson j with
    | none => none
    | some e =>
      match decodeExperts js with
      | none => none
      | some es => some (e :: es)

/-- `serde_json::to_vec(&parsed)` (main.rs lines 342, 351): the whole
sequence as one JSON array. -/
def persistDb (S : List Expert) : Json :=
  .arr (S.map expertToJson)

/-- `read_db` (main.rs lines 318-322): parse the db file as a
`Vec<Expert>`, `Err(ParseDBError)` when the content does not decode. -/
def read_db (file : Json) : Except Error (List Expert) :=
  match file with
  | .arr xs =>
    match decodeExperts xs with
    | some v => .ok v
    | none => .error .ParseDBError
  | _ => .error .ParseDBError

/-- A concrete timestamp with full nanosecond precision, for witnesses. -/
def tsExample : Timestamp :=
  ⟨2021, 5, 10, 17, 45, 30, 735654321⟩

/-- Concrete record A of the spec's §8 scenario. -/
def expertA : Expert :=
  ⟨1, "A", "areas", 6, tsExample⟩

/-- Concrete record B of the spec's §8 scenario. -/
def expertB : Expert :=
  ⟨2, "B", "areas", 6, tsExample⟩

/-- Concrete record C of the spec's §8 scenario. -/
def expertC : Expert :=
  ⟨3, "C", "areas", 6, tsExample⟩

/-- The spec's §8 scenario store `[A, B, C]`. -/
def dbABC : List Expert :=
  [expertA, expertB, expertC]

/-- A concrete draw bundle for the add command. -/
def drawsOne : RngDraws :=
  { catDraw := 0, idDraw := 42, nameStream := fun _ => 'a', now := tsExample }

/-- The same draws as `drawsOne`, at a later `Utc::now()` reading. -/
def drawsTwo : RngDraws :=
  { catDraw := 0, idDraw := 42, nameStream := fun _ => 'a'
  , now := ⟨2022, 1, 1, 0, 0, 0, 0⟩ }

/-- `digitChar` of a digit is a digit character. -/
theorem digitChar_isDigit {d : Nat} (h : d < 10) : (digitChar d).isDigit = true := by
  interval_cases d <;> decide

/-- `digitVal` inverts `digitChar` on digits. -/
theorem digitVal_digitChar {d : Nat} (h : d < 10) : digitVal (digitChar d) = d := by
  interval_cases d <;> decide

/-- Reading back a fixed-width decimal rendering recovers the number. -/
theorem parseFixedNat_toFixedDigits {w : Nat} :
    ∀ {n acc : Nat} (rest : List Char), n < 10 ^ w →
      parseFixedNat acc w (toFixedDigits w n ++ rest) = some (acc * 10 ^ w + n, rest) := by
  induction w with
  | zero =>
    intro n acc rest h
    have hn : n = 0 := by omega
    subst hn
    simp [toFixedDigits, parseFixedNat]
  | succ w ih =>
    intro n acc rest h
    have hq : n / 10 ^ w < 10 := by
      rw [Nat.div_lt_iff_lt_mul (by positivity)]
      calc n < 10 ^ (w + 1) := h
        _ = 10 * 10 ^ w := by ring
    have hr : n % 10 ^ w < 10 ^ w := Nat.mod_lt _ (by positivity)
    have hdm := Nat.div_add_mod n (10 ^ w)
    simp only [toFixedDigits, List.cons_append, parseFixedNat,
      digitChar_isDigit hq, if_true, digitVal_digitChar hq, List.append_eq]
    rw [ih rest hr]
    have harith : (acc * 10 + n / 10 ^ w) * 10 ^ w + n % 10 ^ w
        = acc * 10 ^ (w + 1) + n := by
      calc (acc * 10 + n / 10 ^ w) * 10 ^ w + n % 10 ^ w
          = acc * (10 ^ w * 10) + (10 ^ w * (n / 10 ^ w) + n % 10 ^ w) := by ring
        _ = acc * 10 ^ (w + 1) + n := by rw [hdm, pow_succ]
    rw [harith]

/-- `expectChar` consumes the character it expects. -/
theorem expectChar_cons (c : Char) (rest : List Char) :
    expectChar c (c :: rest) = some rest := by
  simp [expectChar]

/-- Parsing the rendering of a well-formed timestamp recovers it exactly,
nanoseconds included. -/
theorem parseTimestamp_formatTimestamp (t : Timestamp) (rest : List Char) (h : t.Wf) :
    parseTimestamp (formatTimestamp t ++ rest) = some (t, rest) := by
  obtain ⟨h1, h2, h3, h4, h5, h6, h7⟩ := h
  simp only [formatTimestamp, List.append_assoc, List.cons_append]
  simp only [parseTimestamp, parseFixedNat_toFixedDigits, expectChar_cons,
    bind, Option.bind, zero_mul, zero_add, List.nil_append,
    h1, h2, h3, h4, h5, h6, h7]

/-- Parsing a full rendering consumes the whole string. -/
theorem parseTimestamp_formatTimestamp_nil (t : Timestamp) (h : t.Wf) :
    parseTimestamp (formatTimestamp t) = some (t, []) := by
  have hrt := parseTimestamp_formatTimestamp t [] h
  rwa [List.append_nil] at hrt

/-- Decoding the encoding of a well-formed record recovers it field for
field. -/
theorem expertFromJson_expertToJson (e : Expert) (h : e.Wf) :
    expertFromJson (expertToJson e) = some e := by
  have hts := parseTimestamp_formatTimestamp_nil e.created_at h
  simp [expertFromJson, expertToJson, Json.getField, Json.asNum, Json.asStr, hts]

/-- Element-wise decoding inverts element-wise encoding. -/
theorem decodeExperts_map (S : List Expert) (h : ∀ e ∈ S, e.Wf) :
    decodeExperts (S.map expertToJson) = some S := by
  induction S with
  | nil => rfl
  | cons e S ih =>
    simp only [List.map_cons, decodeExperts,
      expertFromJson_expertToJson e (h e (List.mem_cons_self e S)),
      ih (fun x hx => h x (List.mem_cons_of_mem e hx))]

/-- `checkedSub` succeeds exactly on non-underflowing subtractions. -/
theorem checkedSub_eq_some {a b : Nat} (h : b ≤ a) : checkedSub a b = some (a - b) := by
  simp [checkedSub, h]

/-- `checkedSub` panics exactly on underflow. -/
theorem checkedSub_eq_none {a b : Nat} (h : a < b) : checkedSub a b = none := by
  simp only [checkedSub, ite_eq_right_iff]
  omega

/-- On valid cursors the Down map is increment modulo the length. -/
theorem downCursor_eq_mod (L m : Nat) (h : m < L) : downCursor L m = (m + 1) % L := by
  unfold downCursor
  by_cases hc : m ≥ L - 1
  · rw [if_pos hc]
    have hm : m = L - 1 := by omega
    have hL : L - 1 + 1 = L := by omega
    rw [hm, hL, Nat.mod_self]
  · rw [if_neg hc, Nat.mod_eq_of_lt (by omega)]

/-- On valid cursors the Up map is adding `L - 1` modulo the length. -/
theorem upCursor_eq_mod (L m : Nat) (h : m < L) : upCursor L m = (m + (L - 1)) % L := by
  unfold upCursor
  by_cases hc : m > 0
  · rw [if_pos hc]
    have he : m + (L - 1) = m - 1 + L := by omega
    rw [he, Nat.add_mod_right, Nat.mod_eq_of_lt (by omega)]
  · rw [if_neg hc]
    have hm : m = 0 := by omega
    rw [hm, Nat.zero_add, Nat.mod_eq_of_lt (by omega)]

/-- Iterating the Down map `k` times adds `k` modulo the length. -/
theorem iterate_downCursor (L : Nat) (hL : 0 < L) :
    ∀ (k c : Nat), c < L → (downCursor L)^[k] c = (c + k) % L := by
  intro k
  induction k with
  | zero =>
    intro c hc
    simp [Nat.mod_eq_of_lt hc]
  | succ k ih =>
    intro c hc
    rw [Function.iterate_succ_apply', ih c hc,
      downCursor_eq_mod L _ (Nat.mod_lt _ hL), Nat.mod_add_mod]
    congr 1

/-- Iterating the Up map `k` times adds `k * (L - 1)` modulo the length. -/
theorem iterate_upCursor (L : Nat) (hL : 0 < L) :
    ∀ (k c : Nat), c < L → (upCursor L)^[k] c = (c + k * (L - 1)) % L := by
  intro k
  induction k with
  | zero =>
    intro c hc
    simp [Nat.mod_eq_of_lt hc]
  | succ k ih =>
    intro c hc
    rw [Function.iterate_succ_apply', ih c hc,
      upCursor_eq_mod L _ (Nat.mod_lt _ hL), Nat.mod_add_mod]
    congr 1
    ring

/-- C1: for every store sequence and selected cursor index `i` with
`0 < i < length`, the delete command removes the record at position `i`
(the file now holds the other records in order) and the selection cursor
afterwards equals `i - 1`, one position before the removed slot. -/
theorem c1_delete_midlist (S : List Expert) (i : Nat) (m : MenuItem)
    (h0 : 0 < i) (h : i < S.length) :
    remove_expert_at_index ⟨S, some i, m⟩
      = .ok ⟨S.take i ++ S.drop (i + 1), some (i - 1), m⟩ := by
  simp only [remove_expert_at_index, if_pos h, checkedSub_eq_some h0,
    List.eraseIdx_eq_take_drop_succ]

/-- C1 witness: the spec's §8 scenario, store `[A, B, C]` with cursor 1:
delete yields store `[A, C]` and cursor 0. -/
theorem c1_witness :
    0 < 1 ∧ 1 < dbABC.length ∧
      remove_expert_at_index ⟨dbABC, some 1, .Home⟩
        = .ok ⟨dbABC.take 1 ++ dbABC.drop (1 + 1), some (1 - 1), .Home⟩ :=
  ⟨by decide, by decide, c1_delete_midlist dbABC 1 .Home (by decide) (by decide)⟩

/-- C2 (code bug): the UI loop's initial state violates the cursor
invariant when the db file is empty: the store sequence is empty, yet the
selection cursor is `Some(0)` rather than absent (main.rs line 98 selects
index 0 unconditionally, and no handler ever selects `None`). -/
theorem c2_empty_store_cursor_defined :
    (initState []).db = [] ∧ (initState []).cursor = some 0 ∧
      (initState []).cursor ≠ none := by
  decide

/-- C3 (code bug): on an empty store with the initial `Some(0)` selection,
both navigate-down and navigate-up evaluate `amount_experts - 1` with
`amount_experts == 0`; the `usize` subtraction underflows and the handler
panics instead of being a no-op. -/
theorem c3_empty_store_navigation_panics :
    navDown (initState []) = .panicked (initState []) ∧
      navUp (initState []) = .panicked (initState []) := by
  decide

/-- C4 (code bug): deleting while the cursor is at index 0 does not clamp
and does not signal an error: the record is removed and persisted, and the
cursor repair `selected - 1` then underflows and panics. -/
theorem c4_delete_at_zero_underflows :
    remove_expert_at_index ⟨[expertA, expertB], some 0, .Home⟩
      = .panicked ⟨[expertB], some 0, .Home⟩ := by
  decide

/-- C5: append followed by load yields a sequence exactly one longer,
with the generated record last and all prior elements unchanged in order;
the persisted list is also the list the operation returns
(main.rs lines 341-343). -/
theorem c5_append_load (S : List Expert) (d : RngDraws) :
    (add_random_expert_to_db S d).length = S.length + 1 ∧
      (add_random_expert_to_db S d).getLast? = some (makeRandomExpert d) ∧
      (add_random_expert_to_db S d).take S.length = S := by
  refine ⟨?_, ?_, ?_⟩
  · simp [add_random_expert_to_db]
  · simp [add_random_expert_to_db]
  · simp only [add_random_expert_to_db]
    exact List.take_left S [makeRandomExpert d]

/-- C6: removing a valid index `i` persists a sequence exactly one
shorter, holding the records before `i` and after `i` in their original
order (whether or not the subsequent cursor repair panics). -/
theorem c6_removeAt_load (S : List Expert) (i : Nat) (m : MenuItem) (h : i < S.length) :
    (remove_expert_at_index ⟨S, some i, m⟩).dbFile = S.take i ++ S.drop (i + 1) ∧
      (remove_expert_at_index ⟨S, some i, m⟩).dbFile.length = S.length - 1 := by
  have hdb : (remove_expert_at_index ⟨S, some i, m⟩).dbFile = S.eraseIdx i := by
    simp only [remove_expert_at_index, if_pos h]
    cases hcs : checkedSub i 1 <;> simp [StepResult.dbFile]
  refine ⟨?_, ?_⟩
  · rw [hdb, List.eraseIdx_eq_take_drop_succ]
  · rw [hdb, List.length_eraseIdx]
    simp [h]

/-- C6 witness: removing index 1 from `[A, B, C]` persists `[A, C]`, of
length 2. -/
theorem c6_witness :
    1 < dbABC.length ∧
      ((remove_expert_at_index ⟨dbABC, some 1, .Home⟩).dbFile
          = dbABC.take 1 ++ dbABC.drop (1 + 1) ∧
        (remove_expert_at_index ⟨dbABC, some 1, .Home⟩).dbFile.length
          = dbABC.length - 1) :=
  ⟨by decide, c6_removeAt_load dbABC 1 .Home (by decide)⟩

/-- C7 counterexample: with the cursor at the out-of-range index 1 of a
one-record store, `remove_expert_at_index` panics (`Vec::remove`'s bounds
check, before any write): it does not fail with an `IndexOutOfRange`
error value — the source `Error` type has no such variant at all. -/
theorem c7_counterexample :
    remove_expert_at_index ⟨[expertA], some 1, .Home⟩
      = .panicked ⟨[expertA], some 1, .Home⟩ := by
  decide

/-- C7 as amended: for every index `i >= len(S)`, removal panics (rather
than returning an `IndexOutOfRange` error, which the code cannot produce)
and the persisted sequence is left unchanged. -/
theorem c7_amended_out_of_range_panics (S : List Expert) (i : Nat) (m : MenuItem)
    (h : S.length ≤ i) :
    remove_expert_at_index ⟨S, some i, m⟩ = .panicked ⟨S, some i, m⟩ := by
  simp only [remove_expert_at_index, if_neg (by omega : ¬ i < S.length)]

/-- C7 witness: deleting index 2 of the two-record store `[A, B]` panics
with the store unchanged. -/
theorem c7_witness :
    List.length [expertA, expertB] ≤ 2 ∧
      remove_expert_at_index ⟨[expertA, expertB], some 2, .Home⟩
        = .panicked ⟨[expertA, expertB], some 2, .Home⟩ :=
  ⟨by decide, c7_amended_out_of_range_panics [expertA, expertB] 2 .Home (by decide)⟩

/-- C8: persisting a well-formed record sequence and loading it back
returns the same sequence field for field; the timestamp rendering keeps
full nanosecond precision. -/
theorem c8_persist_load_roundtrip (S : List Expert) (h : ∀ e ∈ S, e.Wf) :
    read_db (persistDb S) = .ok S := by
  simp [read_db, persistDb, decodeExperts_map S h]

/-- C8 witness: a concrete record with a nine-digit nanosecond timestamp
round-trips exactly. -/
theorem c8_witness :
    (∀ e ∈ [expertA], e.Wf) ∧ read_db (persistDb [expertA]) = .ok [expertA] :=
  ⟨by decide, c8_persist_load_roundtrip [expertA] (by decide)⟩

/-- C9: on a non-empty store of length `L` and any valid cursor, the Down
handler applies `downCursor` (and Up applies `upCursor`) with the store
and view untouched, and iterating either cursor map `L` times returns the
cursor to its starting value (wrap-around cycle law). -/
theorem c9_wraparound_cycle (S : List Expert) (c : Nat) (m : MenuItem)
    (hS : S ≠ []) (hc : c < S.length) :
    navDown ⟨S, some c, m⟩ = .ok ⟨S, some (downCursor S.length c), m⟩ ∧
      navUp ⟨S, some c, m⟩ = .ok ⟨S, some (upCursor S.length c), m⟩ ∧
      (downCursor S.length)^[S.length] c = c ∧
      (upCursor S.length)^[S.length] c = c := by
  have hL : 0 < S.length := List.length_pos.mpr hS
  refine ⟨?_, ?_, ?_, ?_⟩
  · by_cases hge : c ≥ S.length - 1
    · simp [navDown, checkedSub_eq_some hL, downCursor, hge]
    · simp [navDown, checkedSub_eq_some hL, downCursor, hge]
  · by_cases hpos : c > 0
    · simp [navUp, upCursor, hpos]
    · simp [navUp, checkedSub_eq_some hL, upCursor, hpos]
  · rw [iterate_downCursor S.length hL S.length c hc, Nat.add_mod_right,
      Nat.mod_eq_of_lt hc]
  · rw [iterate_upCursor S.length hL S.length c hc,
      Nat.add_mul_mod_self_left, Nat.mod_eq_of_lt hc]

/-- C9 witness: on the three-record store `[A, B, C]` with cursor 1, the
handlers apply the cursor maps and three steps of either map return to 1. -/
theorem c9_witness :
    dbABC ≠ [] ∧ 1 < dbABC.length ∧
      (navDown ⟨dbABC, some 1, .Home⟩
          = .ok ⟨dbABC, some (downCursor dbABC.length 1), .Home⟩ ∧
        navUp ⟨dbABC, some 1, .Home⟩
          = .ok ⟨dbABC, some (upCursor dbABC.length 1), .Home⟩ ∧
        (downCursor dbABC.length)^[dbABC.length] 1 = 1 ∧
        (upCursor dbABC.length)^[dbABC.length] 1 = 1) :=
  ⟨by decide, by decide, c9_wraparound_cycle dbABC 1 .Home (by decide) (by decide)⟩

/-- C10 counterexample: two add commands whose random draws coincide but
whose `Utc::now()` readings differ produce records that agree on id and
name and still differ (in `created_at`), so id and name are not the only
fields that differ between generated records. -/
theorem c10_counterexample :
    (makeRandomExpert drawsOne).id = (makeRandomExpert drawsTwo).id ∧
      (makeRandomExpert drawsOne).name = (makeRandomExpert drawsTwo).name ∧
      makeRandomExpert drawsOne ≠ makeRandomExpert drawsTwo := by
  decide

/-- C10 as amended: every record generated by the add command has
category `"areas"` (the draw ranges over `0..1`, so the `"directories"`
branch is dead) and age 6; its id is the draw from `0..=9999999` and its
name has 10 alphanumeric characters; only the id, the name, and the
`created_at` timestamp can differ between generated records. -/
theorem c10_generated_record_shape (d d' : RngDraws)
    (hcat : d.catDraw < 1) (hcat' : d'.catDraw < 1)
    (hid : d.idDraw ≤ 9999999)
    (halnum : ∀ n, (d.nameStream n).isAlphanum = true) :
    (makeRandomExpert d).category = "areas" ∧
      (makeRandomExpert d).age = 6 ∧
      (makeRandomExpert d).id = d.idDraw ∧
      (makeRandomExpert d).id ≤ 9999999 ∧
      (makeRandomExpert d).name.length = 10 ∧
      (∀ ch ∈ (makeRandomExpert d).name.data, ch.isAlphanum = true) ∧
      (makeRandomExpert d).category = (makeRandomExpert d').category ∧
      (makeRandomExpert d).age = (makeRandomExpert d').age := by
  have h0 : d.catDraw = 0 := by omega
  have h0' : d'.catDraw = 0 := by omega
  refine ⟨?_, rfl, rfl, hid, ?_, ?_, ?_, rfl⟩
  · simp [makeRandomExpert, areadirs, h0]
  · simp [makeRandomExpert, String.length]
  · intro ch hch
    simp only [makeRandomExpert, String.data] at hch
    obtain ⟨n, _, rfl⟩ := List.mem_map.mp hch
    exact halnum n
  · simp [makeRandomExpert, areadirs, h0, h0']

/-- C10 witness: concrete draws with `catDraw = 0`, id 42 and a constant
alphanumeric name stream satisfy the amended statement. -/
theorem c10_witness :
    drawsOne.catDraw < 1 ∧ drawsTwo.catDraw < 1 ∧ drawsOne.idDraw ≤ 9999999 ∧
      ((makeRandomExpert drawsOne).category = "areas" ∧
        (makeRandomExpert drawsOne).age = 6 ∧
        (makeRandomExpert drawsOne).id = drawsOne.idDraw ∧
        (makeRandomExpert drawsOne).id ≤ 9999999 ∧
        (makeRandomExpert drawsOne).name.length = 10 ∧
        (∀ ch ∈ (makeRandomExpert drawsOne).name.data, ch.isAlphanum = true) ∧
        (makeRandomExpert drawsOne).category = (makeRandomExpert drawsTwo).category ∧
        (makeRandomExpert drawsOne).age = (makeRandomExpert drawsTwo).age) :=
  ⟨by decide, by decide, by decide,
    c10_generated_record_shape drawsOne drawsTwo (by decide) (by decide) (by decide)
      (fun _ => rfl)⟩
